import Mathlib

/-!
Shallow embedding of the core of the `smap_l2_gridder` package
(`grid.py`, `collections.py`, `crs.py`) together with theorems checking the
package's natural-language specification against this embedding.

Modelling conventions:
* numpy scalars are modelled by `PyVal`: integers carry their integer dtype
  and an `Int` payload, floats carry their float dtype and an exact `ℚ`
  payload (`nanV` models a NaN of a float dtype), strings are `String`,
  and Python `None` is `noneV`.  Exact rationals stand in for IEEE doubles;
  none of the checked properties depends on rounding.
* Python dictionaries appear as association lists (`List (String × _)`)
  with insertion-order upsert, matching `dict` semantics.
* Python functions that raise are embedded as `Except GridServiceError _`.
-/

namespace SmapL2

/-- The numpy dtypes that occur in SMAP L2 inputs (grid.py works with float,
integer, boolean, string and object dtypes; complex dtypes never occur). -/
inductive Dtype
  | float32
  | float64
  | int8
  | int16
  | int32
  | int64
  | uint8
  | uint16
  | uint32
  | uint64
  | bool_
  | str_
  | object_
deriving DecidableEq, Repr

/-- `np.issubdtype(dt, np.number)` for the dtypes of `Dtype`. -/
def Dtype.isNumber : Dtype → Bool
  | .bool_ => false
  | .str_ => false
  | .object_ => false
  | _ => true

/-- `np.issubdtype(dt, np.floating)`. -/
def Dtype.isFloating : Dtype → Bool
  | .float32 => true
  | .float64 => true
  | _ => false

/-- `np.iinfo(dt).max` for the integer dtypes (0 elsewhere; `default_fill_value`
only consults it for integer dtypes, where `np.iinfo` is defined). -/
def Dtype.iinfoMax : Dtype → Int
  | .int8 => 127
  | .int16 => 32767
  | .int32 => 2 ^ 31 - 1
  | .int64 => 2 ^ 63 - 1
  | .uint8 => 255
  | .uint16 => 65535
  | .uint32 => 2 ^ 32 - 1
  | .uint64 => 2 ^ 64 - 1
  | _ => 0

/-- A Python/numpy scalar value as it flows through `grid.py`. -/
inductive PyVal
  | noneV
  | intV (dt : Dtype) (n : Int)
  | floatV (dt : Dtype) (q : ℚ)
  | nanV (dt : Dtype)
  | strV (s : String)
deriving DecidableEq, Repr

/-- The slice of an `xarray.DataArray` that `variable_fill_value` and
`grid_variable` read: the 1D payload, the storage dtype, and the
`encoding` / `attrs` entries consulted for fill values.  An entry that is
absent from the Python dict behaves exactly like an entry stored as `None`
(`dict.get` returns `None` either way), so both are `noneV` here. -/
structure Variable where
  data : List PyVal
  dtype : Dtype
  encodingDtype : Option Dtype
  encodingFillValue : PyVal
  attrsFillValue : PyVal
  attrsMissingValue : PyVal
deriving DecidableEq, Repr

/-- grid.py `default_fill_value`: `None` for non-numeric dtypes, `-9999.0` in
the dtype's own float subtype for floating dtypes, `np.iinfo(dt).max` for
integer dtypes. -/
def default_fill_value (data_type : Dtype) : PyVal :=
  if ¬ data_type.isNumber then .noneV
  else if data_type.isFloating then .floatV data_type (-9999)
  else .intV data_type data_type.iinfoMax

/-- grid.py `variable_fill_value`: first of `encoding._FillValue`,
`attrs._FillValue`, `attrs.missing_value` that is not `None`, else the
type-derived default for `encoding.get('dtype', var.dtype)`. -/
def variable_fill_value (var : Variable) : PyVal :=
  let f1 := var.encodingFillValue
  let f2 := if f1 = .noneV then var.attrsFillValue else f1
  let f3 := if f2 = .noneV then var.attrsMissingValue else f2
  if f3 = .noneV then default_fill_value (var.encodingDtype.getD var.dtype) else f3

/-- The exception values raised by the embedded code paths.
`invalidCollection` and `invalidVariableShape` embed the package's
`InvalidCollectionError` and `InvalidVariableShape`; `keyError` and
`typeError` embed the Python builtins of the same names. -/
inductive GridServiceError
  | invalidCollection (message : String)
  | invalidVariableShape (message : String)
  | keyError (message : String)
  | typeError (message : String)
deriving DecidableEq, Repr

/-- One entry of `data_groups` in collections.py `COLLECTION_INFORMATION`:
the row/col index paths, gpd file, epsg code, and the two optional lists. -/
structure GroupConfig where
  row : String
  col : String
  gpd : String
  epsg : String
  excludedScienceVariables : Option (List String)
  flattenedVariables : Option (List String)
deriving DecidableEq, Repr

/-- One collection entry of collections.py `COLLECTION_INFORMATION`. -/
structure CollectionConfig where
  metadata : List String
  data_groups : List (String × GroupConfig)
deriving DecidableEq, Repr

/-- collections.py `STANDARD_LOCATIONS` row path. -/
def standardRow : String := "Soil_Moisture_Retrieval_Data/EASE_row_index"

/-- collections.py `STANDARD_LOCATIONS` col path. -/
def standardCol : String := "Soil_Moisture_Retrieval_Data/EASE_column_index"

/-- collections.py `COLLECTION_INFORMATION`, with the `STANDARD_LOCATIONS`
and `GRIDS` dict-splices expanded exactly as Python's `**` would. -/
def COLLECTION_INFORMATION : List (String × CollectionConfig) :=
  [("SPL2SMP_E",
    ⟨["Metadata"],
     [("Soil_Moisture_Retrieval_Data",
       ⟨standardRow, standardCol, "EASE2_M09km.gpd", "EPSG:6933",
        some ["tb_time_utc"], none⟩),
      ("Soil_Moisture_Retrieval_Data_Polar",
       ⟨"Soil_Moisture_Retrieval_Data_Polar/EASE_row_index",
        "Soil_Moisture_Retrieval_Data_Polar/EASE_column_index",
        "EASE2_N09km.gpd", "EPSG:6931", some ["tb_time_utc"], none⟩)]⟩),
   ("SPL2SMAP",
    ⟨["Metadata"],
     [("Soil_Moisture_Retrieval_Data",
       ⟨standardRow, standardCol, "EASE2_M09km.gpd", "EPSG:6933",
        some ["spacecraft_overpass_time_utc"], none⟩),
      ("Soil_Moisture_Retrieval_Data_3km",
       ⟨"Soil_Moisture_Retrieval_Data_3km/EASE_row_index_3km",
        "Soil_Moisture_Retrieval_Data_3km/EASE_column_index_3km",
        "EASE2_M03km.gpd", "EPSG:6933",
        some ["spacecraft_overpass_time_utc"], none⟩)]⟩),
   ("SPL2SMA",
    ⟨["Metadata"],
     [("Ancillary_Data",
       ⟨standardRow, standardCol, "EASE2_M03km.gpd", "EPSG:6933", none, none⟩),
      ("Radar_Data",
       ⟨standardRow, standardCol, "EASE2_M03km.gpd", "EPSG:6933", none, none⟩),
      ("Soil_Moisture_Retrieval_Data",
       ⟨standardRow, standardCol, "EASE2_M03km.gpd", "EPSG:6933",
        some ["spacecraft_overpass_time_utc"], none⟩)]⟩),
   ("SPL2SMP",
    ⟨["Metadata"],
     [("Soil_Moisture_Retrieval_Data",
       ⟨standardRow, standardCol, "EASE2_M36km.gpd", "EPSG:6933",
        some ["tb_time_utc"],
        some ["landcover_class", "landcover_class_fraction"]⟩)]⟩)]

/-- collections.py `get_all_information`. -/
def get_all_information : List (String × CollectionConfig) := COLLECTION_INFORMATION

/-- collections.py `get_collection_info`: registry lookup, raising
`InvalidCollectionError` for an unknown short name. -/
def get_collection_info (short_name : String) :
    Except GridServiceError CollectionConfig :=
  match List.lookup short_name get_all_information with
  | some c => .ok c
  | none =>
    .error (.invalidCollection ("No collection information for " ++ short_name))

/-- collections.py `get_collection_group_info`: group lookup inside a
collection, raising `InvalidCollectionError` naming group and collection. -/
def get_collection_group_info (short_name group : String) :
    Except GridServiceError GroupConfig :=
  match get_collection_info short_name with
  | .error e => .error e
  | .ok collection =>
    match List.lookup group collection.data_groups with
    | some group_info => .ok group_info
    | none =>
      .error (.invalidCollection
        ("No group named " ++ group ++ " in " ++ short_name))

/-- collections.py `get_excluded_science_variables`: the configured exclusion
list as a set; the `except KeyError` branch (no
`ExcludedScienceVariables` key) yields the empty set. -/
def get_excluded_science_variables (short_name group : String) :
    Except GridServiceError (Finset String) :=
  match get_collection_group_info short_name group with
  | .error e => .error e
  | .ok info =>
    match info.excludedScienceVariables with
    | some dropped_vars => .ok dropped_vars.toFinset
    | none => .ok ∅

/-- collections.py `get_flattened_variables`: the configured flatten
candidates intersected with the variables present; the `except KeyError`
branch (no `FlattenedVariables` key) yields the empty set. -/
def get_flattened_variables (short_name group_name : String)
    (var_list : Finset String) : Except GridServiceError (Finset String) :=
  match get_collection_group_info short_name group_name with
  | .error e => .error e
  | .ok info =>
    match info.flattenedVariables with
    | some flattened_vars => .ok (flattened_vars.toFinset ∩ var_list)
    | none => .ok ∅

/-- grid.py `separate_2d_variables` (lines 161-177).  Its body runs
`get_flattened_variables(short_name, str(in_dt.name))`: only two positional
arguments, while `collections.get_flattened_variables` declares three
required parameters `(short_name, group_name, var_list)`.  In Python that
call raises `TypeError` before any set arithmetic happens, so the embedding
returns that error unconditionally; the `var_list - vars_to_flatten`
partition on line 177 is unreachable. -/
def separate_2d_variables (in_dt_name short_name : String)
    (var_list : Finset String) :
    Except GridServiceError (Finset String × Finset String) :=
  .error (.typeError
    "get_flattened_variables() missing 1 required positional argument: var_list")

/-- The two entries of the parsed gpd mapping that `grid_variable` reads
(`grid_info['target']['Grid Height']` and `['Grid Width']`). -/
structure TargetGridInfo where
  gridHeight : Nat
  gridWidth : Nat
deriving DecidableEq, Repr

/-- `grid_info['src']`: the row and column index arrays, one entry per 1D
sample (already cast to an unsigned integer dtype, hence `Nat`). -/
structure SourceIndexInfo where
  rows : List Nat
  cols : List Nat
deriving DecidableEq, Repr

/-- The valid-sample mask of `grid_variable`: `~np.isnan(var.data)` for
numeric data (NaN invalid, everything else valid, `np.isnan` being false on
integers), and the `except TypeError` fallback `var.data != ''` for string
data.  `np.isnan` also raises `TypeError` on object data, so `None` falls
through to the string comparison and counts as valid. -/
def sampleValid : PyVal → Bool
  | .nanV _ => false
  | .strV s => s != ""
  | _ => true

/-- A gridded output array: the allocated shape together with the cell
contents as a total function (cells outside the shape never get written by
in-bounds scatters and keep the fill value). -/
structure GridArray where
  height : Nat
  width : Nat
  cell : Nat → Nat → PyVal

/-- One element-assignment of the fancy-indexed store
`grid[valid_rows, valid_cols] = valid_values`. -/
def writeCell (g : Nat → Nat → PyVal) (t : Nat × Nat × PyVal) :
    Nat → Nat → PyVal :=
  fun i j => if t.1 = i ∧ t.2.1 = j then t.2.2 else g i j

/-- Pointwise zip of the row, column and value arrays (they have equal
length for conforming inputs; extra elements of a longer array are ignored,
mirroring how the claims only constrain equal-length inputs). -/
def zip3 {α β γ : Type} : List α → List β → List γ → List (α × β × γ)
  | a :: as, b :: bs, c :: cs => (a, b, c) :: zip3 as bs cs
  | _, _, _ => []

/-- grid.py `grid_variable`: allocate a (Grid Height, Grid Width) array
filled with `variable_fill_value(var)`, keep the samples passing the
valid mask, and assign `grid[rows[i], cols[i]] = data[i]` for them in index
order (numpy assigns element by element, so on index collisions the last
assignment is the one that remains). -/
def grid_variable (var : Variable) (target : TargetGridInfo)
    (src : SourceIndexInfo) : GridArray :=
  let fill_val := variable_fill_value var
  let valid_samples :=
    (zip3 src.rows src.cols var.data).filter (fun t => sampleValid t.2.2)
  ⟨target.gridHeight, target.gridWidth,
   valid_samples.foldl writeCell (fun _ _ => fill_val)⟩

/-- A parsed gpd value: crs.py `convert_value` returns an `np.float64`, an
`np.long`, or the original string. -/
inductive GpdValue
  | float (q : ℚ)
  | int (n : Int)
  | str (s : String)
deriving DecidableEq, Repr

/-- Numeric value of a digit string (most significant digit first). -/
def digitsToNat (cs : List Char) : Nat :=
  cs.foldl (fun acc ch => acc * 10 + (ch.toNat - 48)) 0

/-- Parse a non-empty all-digit character list. -/
def parseNatDigits? (cs : List Char) : Option Nat :=
  if cs ≠ [] ∧ cs.all Char.isDigit then some (digitsToNat cs) else none

/-- Strip one leading sign character, returning the sign as `1` or `-1`. -/
def stripSign : List Char → Int × List Char
  | '-' :: rest => (-1, rest)
  | '+' :: rest => (1, rest)
  | cs => (1, cs)

/-- Split a character list at the first occurrence of `sep`; the second
component is `none` when `sep` does not occur. -/
def splitAtFirst (sep : Char) : List Char → List Char × Option (List Char)
  | [] => ([], none)
  | ch :: rest =>
    if ch = sep then ([], some rest)
    else
      let (pre, post) := splitAtFirst sep rest
      (ch :: pre, post)

/-- Parse an unsigned decimal mantissa, with or without a decimal point
(`"7000"`, `"7000.5"`, `"7000."`, `".5"`).  A second point or any non-digit
makes the parse fail. -/
def parseMantissa? (cs : List Char) : Option ℚ :=
  match splitAtFirst '.' cs with
  | (intPart, none) => (parseNatDigits? intPart).map (fun n => (n : ℚ))
  | (intPart, some fracPart) =>
    if intPart.all Char.isDigit ∧ fracPart.all Char.isDigit ∧
        (intPart ≠ [] ∨ fracPart ≠ []) then
      some ((digitsToNat intPart : ℚ) +
        (digitsToNat fracPart : ℚ) / (10 : ℚ) ^ fracPart.length)
    else none

/-- Python `int(s)` on an already-stripped string, as `np.long` uses it:
an optional sign followed by digits.  (Pythonic extras such as digit-group
underscores are not modelled; the gpd grammar never uses them.) -/
def pyIntOfString? (s : String) : Option Int :=
  let (sgn, rest) := stripSign s.data
  (parseNatDigits? rest).map (fun n => sgn * n)

/-- Python `float(s)` / `np.float64(s)` on an already-stripped string:
optional sign, decimal mantissa, optional `e`/`E` exponent, valued exactly
in `ℚ`.  (The special spellings `inf` and `nan` are not modelled; they
contain no digits and no gpd file uses them.) -/
def pyFloatOfString? (s : String) : Option ℚ :=
  let (sgn, rest) := stripSign s.data
  match splitAtFirst 'e' (rest.map Char.toLower) with
  | (mantChars, none) => (parseMantissa? mantChars).map (fun m => sgn * m)
  | (mantChars, some expChars) =>
    match parseMantissa? mantChars with
    | none => none
    | some m =>
      let (esgn, edigits) := stripSign expChars
      (parseNatDigits? edigits).map
        (fun e => sgn * m * (10 : ℚ) ^ (esgn * (e : Int)))

/-- Python `str.strip()` on the character list of a string: drop
whitespace from both ends. -/
def trimChars (cs : List Char) : List Char :=
  ((cs.dropWhile Char.isWhitespace).reverse.dropWhile Char.isWhitespace).reverse

/-- Python `str.strip()` as a `String` operation. -/
def pyStrip (s : String) : String := ⟨trimChars s.data⟩

/-- crs.py `convert_value`: strip, then parse as float when the text
contains a `.`, otherwise as an integer; a failed parse returns the
stripped string itself (the `except ValueError` branch). -/
def convert_value (value : String) : GpdValue :=
  let v := pyStrip value
  if v.data.contains '.' then
    match pyFloatOfString? v with
    | some q => .float q
    | none => .str v
  else
    match pyIntOfString? v with
    | some n => .int n
    | none => .str v

/-- The key produced by crs.py `parse_gpd_file` for one line:
`line.split(':', 1)[0].strip()` applied to the stripped line. -/
def lineKey (raw : String) : String :=
  ⟨trimChars (splitAtFirst ':' (trimChars raw.data)).1⟩

/-- The value text produced by crs.py `parse_gpd_file` for one line:
`line.split(':', 1)[1].split(';')[0].strip()` applied to the stripped
line (everything after the first colon, with a trailing comment removed). -/
def lineValue (raw : String) : String :=
  ⟨trimChars
    (splitAtFirst ';'
      ((splitAtFirst ':' (trimChars raw.data)).2.getD [])).1⟩

/-- The entry one input line contributes in the `parse_gpd_file` loop:
blank lines, `;` comment lines, colon-free lines and lines with an empty
key or value contribute nothing. -/
def processLine (raw : String) : Option (String × GpdValue) :=
  let line := trimChars raw.data
  if line = [] then none
  else if line.head? = some ';' then none
  else if line.contains ':' then
    let key := lineKey raw
    let value := lineValue raw
    if key ≠ "" ∧ value ≠ "" then some (key, convert_value value) else none
  else none

/-- `d[k] = v` on a Python dict kept as an insertion-ordered
association list: replace in place when the key exists, append otherwise. -/
def upsertAssoc {β : Type} :
    List (String × β) → String → β → List (String × β)
  | [], name, v => [(name, v)]
  | (k, w) :: rest, name, v =>
    if k = name then (name, v) :: rest else (k, w) :: upsertAssoc rest name v

/-- crs.py `parse_gpd_file`, with the file contents supplied as the list of
its lines (the `for line in f` loop). -/
def parse_gpd_lines (lines : List String) : List (String × GpdValue) :=
  lines.foldl
    (fun params line =>
      match processLine line with
      | some (k, v) => upsertAssoc params k v
      | none => params)
    []

/-- Split a character list at every occurrence of `sep` (the line
splitting of `for line in f`). -/
def splitOnChar (sep : Char) : List Char → List (List Char)
  | [] => [[]]
  | c :: rest =>
    if c = sep then [] :: splitOnChar sep rest
    else
      match splitOnChar sep rest with
      | l :: ls => (c :: l) :: ls
      | [] => [[c]]

/-- crs.py `parse_gpd_file` on whole file contents. -/
def parse_gpd_file (content : String) : List (String × GpdValue) :=
  parse_gpd_lines ((splitOnChar '\x0a' content.data).map (fun cs => ⟨cs⟩))

/-- A numpy ndarray of any rank: its shape and its row-major (C-order)
element list.  For a well-formed array `flatData.length = shape.prod`. -/
structure NdArray where
  shape : List Nat
  flatData : List PyVal
deriving DecidableEq, Repr

/-- Column `idx` of a rank-2 array: `arr[:, idx]`, a rank-1 array with one
entry per row, read at row-major offset `i * shape[1] + idx`. -/
def NdArray.column (a : NdArray) (idx : Nat) : NdArray :=
  let n := a.shape.headD 0
  let ncols := (a.shape.get? 1).getD 0
  ⟨[n],
   (List.range n).map (fun i => (a.flatData.get? (i * ncols + idx)).getD .noneV)⟩

/-- A node variable of a `DataTree`: array payload plus attribute dict
(`DataArray(raw)` built by `split_2d_variable` has an empty one). -/
structure DataArrayVar where
  data : NdArray
  attrs : List (String × PyVal)
deriving DecidableEq, Repr

/-- The slice of an `xarray.DataTree` group that `split_2d_variable`
touches: its named variables (insertion-ordered dict) and its attributes. -/
structure DTree where
  vars : List (String × DataArrayVar)
  attrs : List (String × PyVal)
deriving DecidableEq, Repr

/-- `del d[k]` on the variable dict. -/
def removeVar (l : List (String × DataArrayVar)) (name : String) :
    List (String × DataArrayVar) :=
  l.filter (fun p => p.1 != name)

/-- grid.py `split_2d_variable`: on a copy of the tree, check the variable
has shape (N, 3) (`len(shape) != 2 or shape[1] != 3` raises
`InvalidVariableShape`), store its three columns as `{name}_1`, `{name}_2`,
`{name}_3`, and delete the original.  A missing variable name raises the
dict `KeyError` before the shape check. -/
def split_2d_variable (in_dt : DTree) (var_name : String) :
    Except GridServiceError DTree :=
  match List.lookup var_name in_dt.vars with
  | none => .error (.keyError var_name)
  | some multi_var =>
    if multi_var.data.shape.length ≠ 2 ∨
        (multi_var.data.shape.get? 1).getD 0 ≠ 3 then
      .error (.invalidVariableShape
        ("Variable " ++ var_name ++ " must have shape (N, 3)"))
    else
      let v1 := upsertAssoc in_dt.vars (var_name ++ "_1")
        ⟨multi_var.data.column 0, []⟩
      let v2 := upsertAssoc v1 (var_name ++ "_2") ⟨multi_var.data.column 1, []⟩
      let v3 := upsertAssoc v2 (var_name ++ "_3") ⟨multi_var.data.column 2, []⟩
      .ok ⟨removeVar v3 var_name, in_dt.attrs⟩

/-- Modelled from the spec: `grid.py` and the unit tests import
`Geotransform`, `geotransform_from_target_info`, `compute_dims` and
`create_crs` from `smap_l2_gridder.crs`, but the copy of `crs.py` in this
repository snapshot stops after `parse_gpd_file`; the coordinate
synthesizer itself is missing.  `Geotransform` is the 6-parameter affine
record of spec section 4.2 (GDAL ordering:
top-left x, pixel width, row rotation, top-left y, column rotation,
pixel height), with exact rationals for the float64 fields. -/
structure Geotransform where
  top_left_x : ℚ
  pixel_width : ℚ
  row_rotation : ℚ
  top_left_y : ℚ
  column_rotation : ℚ
  pixel_height : ℚ
deriving DecidableEq, Repr

/-- Modelled from the spec: `cell_to_xy` of spec section 4.2 — adjust the
cell index by +0.5 to the cell centre, then apply the affine transform
`x = top_left_x + adj_col*pixel_width + adj_row*row_rotation`,
`y = top_left_y + adj_col*column_rotation + adj_row*pixel_height`. -/
def Geotransform.col_row_to_xy (gt : Geotransform) (col row : ℚ) : ℚ × ℚ :=
  let adj_col := col + 1 / 2
  let adj_row := row + 1 / 2
  (gt.top_left_x + adj_col * gt.pixel_width + adj_row * gt.row_rotation,
   gt.top_left_y + adj_col * gt.column_rotation + adj_row * gt.pixel_height)

/-- The typed view of the gpd keys the coordinate synthesizer consumes
(`Map Origin X`, `Map Origin Y`, `Grid Map Units per Cell`, `Grid Width`,
`Grid Height`). -/
structure GpdTargetInfo where
  mapOriginX : ℚ
  mapOriginY : ℚ
  gridMapUnitsPerCell : ℚ
  gridWidth : Nat
  gridHeight : Nat
deriving DecidableEq, Repr

/-- Modelled from the spec: `build_geotransform` of spec section 4.2 —
origin as top-left, cell size as pixel width, zero rotations, and
`pixel_height = -pixel_width_magnitude`. -/
def geotransform_from_target_info (target_info : GpdTargetInfo) :
    Geotransform :=
  ⟨target_info.mapOriginX, target_info.gridMapUnitsPerCell, 0,
   target_info.mapOriginY, 0, -target_info.gridMapUnitsPerCell⟩

/-- Modelled from the spec: `compute_dims` of spec section 4.2 — x
coordinates are `cell_to_xy(i, 0)` for `i` in `[0, width)`, y coordinates
are `cell_to_xy(0, j)` for `j` in `[0, height)`. -/
def compute_dims (target_info : GpdTargetInfo) : List ℚ × List ℚ :=
  let gt := geotransform_from_target_info target_info
  ((List.range target_info.gridWidth).map
     (fun i : Nat => (gt.col_row_to_xy (i : ℚ) 0).1),
   (List.range target_info.gridHeight).map
     (fun j : Nat => (gt.col_row_to_xy 0 (j : ℚ)).2))

/-- A concrete tree holding a (1, 3) variable `v` next to a pre-existing
variable already named `v_1`, for evaluating `split_2d_variable` where the
generated names collide with an existing variable. -/
def collisionTree : DTree :=
  ⟨[("v", ⟨⟨[1, 3], [.intV .int16 1, .intV .int16 2, .intV .int16 3]⟩, []⟩),
    ("v_1", ⟨⟨[1], [.intV .int16 7]⟩, []⟩)], []⟩

/-- The (2, 3) variable stored as `v` in `plainTree`. -/
def plainTreeV : DataArrayVar :=
  ⟨⟨[2, 3],
    [.intV .int16 1, .intV .int16 2, .intV .int16 3,
     .intV .int16 4, .intV .int16 5, .intV .int16 6]⟩, []⟩

/-- The 1D variable stored as `other` in `plainTree`. -/
def plainTreeOther : DataArrayVar :=
  ⟨⟨[2], [.intV .int16 8, .intV .int16 9]⟩, []⟩

/-- A concrete tree holding a (2, 3) variable `v`, an unrelated 1D variable
`other`, and a group attribute, for evaluating `split_2d_variable` on
conforming input. -/
def plainTree : DTree :=
  ⟨[("v", plainTreeV), ("other", plainTreeOther)],
   [("source", .strV "SMAP")]⟩

/-- The tree `split_2d_variable plainTree "v"` evaluates to: `v` replaced
by its three columns, `other` and the attributes untouched. -/
def plainTreeSplit : DTree :=
  ⟨[("other", ⟨⟨[2], [.intV .int16 8, .intV .int16 9]⟩, []⟩),
    ("v_1", ⟨⟨[2], [.intV .int16 1, .intV .int16 4]⟩, []⟩),
    ("v_2", ⟨⟨[2], [.intV .int16 2, .intV .int16 5]⟩, []⟩),
    ("v_3", ⟨⟨[2], [.intV .int16 3, .intV .int16 6]⟩, []⟩)],
   [("source", .strV "SMAP")]⟩

/-- Claim C2: fill-value resolution returns the first defined value in the
order encoding `_FillValue`, attribute `_FillValue`, `missing_value`
attribute, type-derived default; and the default is null for non-numeric
dtypes, -9999.0 in the variable's own float subtype for float32/float64,
and the maximum representable value for integer dtypes (uint16 ↦ 65535,
int16 ↦ 32767). -/
theorem fill_value_resolution (var : Variable) (dt : Dtype) :
    (var.encodingFillValue ≠ .noneV →
      variable_fill_value var = var.encodingFillValue) ∧
    (var.encodingFillValue = .noneV → var.attrsFillValue ≠ .noneV →
      variable_fill_value var = var.attrsFillValue) ∧
    (var.encodingFillValue = .noneV → var.attrsFillValue = .noneV →
      var.attrsMissingValue ≠ .noneV →
      variable_fill_value var = var.attrsMissingValue) ∧
    (var.encodingFillValue = .noneV → var.attrsFillValue = .noneV →
      var.attrsMissingValue = .noneV →
      variable_fill_value var =
        default_fill_value (var.encodingDtype.getD var.dtype)) ∧
    (dt.isNumber = false → default_fill_value dt = .noneV) ∧
    default_fill_value .float32 = .floatV .float32 (-9999) ∧
    default_fill_value .float64 = .floatV .float64 (-9999) ∧
    default_fill_value .uint16 = .intV .uint16 65535 ∧
    default_fill_value .int16 = .intV .int16 32767 := by
  refine ⟨?_, ?_, ?_, ?_, ?_, by decide, by decide, by decide, by decide⟩
  · intro h; simp [variable_fill_value, h]
  · intro h1 h2; simp [variable_fill_value, h1, h2]
  · intro h1 h2 h3; simp [variable_fill_value, h1, h2, h3]
  · intro h1 h2 h3; simp [variable_fill_value, h1, h2, h3]
  · intro h; simp [default_fill_value, h]

/-- Witness for C2 at a concrete variable whose encoding-level fill value
is set: the encoding value wins. -/
theorem fill_value_resolution_witness :
    (⟨[], .float32, none, .floatV .float32 (-2), .floatV .float32 (-3),
       .noneV⟩ : Variable).encodingFillValue ≠ .noneV ∧
    variable_fill_value
      ⟨[], .float32, none, .floatV .float32 (-2), .floatV .float32 (-3),
       .noneV⟩ = .floatV .float32 (-2) :=
  ⟨by decide,
   (fill_value_resolution
     ⟨[], .float32, none, .floatV .float32 (-2), .floatV .float32 (-3),
      .noneV⟩ .float32).1 (by decide)⟩

/-- Claim C4: an unknown collection short name makes `get_collection_info`
fail with `InvalidCollectionError` naming the short name, and a known
collection with an unknown group makes `get_collection_group_info` fail
with `InvalidCollectionError` naming both the group and the collection. -/
theorem collection_lookup_errors (short_name group : String) :
    (List.lookup short_name get_all_information = none →
      get_collection_info short_name =
        .error (.invalidCollection
          ("No collection information for " ++ short_name))) ∧
    (∀ c, List.lookup short_name get_all_information = some c →
      List.lookup group c.data_groups = none →
      get_collection_group_info short_name group =
        .error (.invalidCollection
          ("No group named " ++ group ++ " in " ++ short_name))) := by
  constructor
  · intro h; simp [get_collection_info, h]
  · intro c hc hg
    simp [get_collection_group_info, get_collection_info, hc, hg]

/-- Witness for C4: a made-up short name, and a made-up group of the known
collection SPL2SMP, produce the two error messages. -/
theorem collection_lookup_errors_witness :
    get_collection_info "MADEUP_SHORTNAME" =
      .error (.invalidCollection
        ("No collection information for " ++ "MADEUP_SHORTNAME")) ∧
    get_collection_group_info "SPL2SMP" "Made_Up_Group" =
      .error (.invalidCollection
        ("No group named " ++ "Made_Up_Group" ++ " in " ++ "SPL2SMP")) :=
  ⟨(collection_lookup_errors "MADEUP_SHORTNAME" "g").1 (by decide),
   (collection_lookup_errors "SPL2SMP" "Made_Up_Group").2
     ⟨["Metadata"],
      [("Soil_Moisture_Retrieval_Data",
        ⟨standardRow, standardCol, "EASE2_M36km.gpd", "EPSG:6933",
         some ["tb_time_utc"],
         some ["landcover_class", "landcover_class_fraction"]⟩)]⟩
     (by decide) (by decide)⟩

/-- Claim C9: for a known collection and configured group, a missing
exclusion list makes the excluded-variables query return the empty set and
a missing flatten list makes the flattened-variables query return the
empty set, neither raising an error. -/
theorem empty_group_config_queries (short_name group : String)
    (info : GroupConfig)
    (hg : get_collection_group_info short_name group = .ok info) :
    (info.excludedScienceVariables = none →
      get_excluded_science_variables short_name group = .ok ∅) ∧
    (∀ var_list, info.flattenedVariables = none →
      get_flattened_variables short_name group var_list = .ok ∅) := by
  constructor
  · intro h; simp [get_excluded_science_variables, hg, h]
  · intro var_list h; simp [get_flattened_variables, hg, h]

/-- Witness for C9: the SPL2SMA Radar_Data group configures neither list,
and both queries return the empty set. -/
theorem empty_group_config_queries_witness :
    get_excluded_science_variables "SPL2SMA" "Radar_Data" = .ok ∅ ∧
    get_flattened_variables "SPL2SMA" "Radar_Data" {"albedo"} = .ok ∅ :=
  ⟨(empty_group_config_queries "SPL2SMA" "Radar_Data"
      ⟨standardRow, standardCol, "EASE2_M03km.gpd", "EPSG:6933", none, none⟩
      rfl).1 rfl,
   (empty_group_config_queries "SPL2SMA" "Radar_Data"
      ⟨standardRow, standardCol, "EASE2_M03km.gpd", "EPSG:6933", none, none⟩
      rfl).2 {"albedo"} rfl⟩

/-- Claim C5: evaluating `separate_2d_variables` at the one collection with
configured flatten candidates shows the code raising `TypeError`, because
grid.py line 176 passes two arguments to the three-parameter
`get_flattened_variables`; the claimed partition is never computed. -/
theorem separate_2d_variables_type_error :
    separate_2d_variables "Soil_Moisture_Retrieval_Data" "SPL2SMP"
      {"landcover_class", "albedo"} =
    .error (.typeError
      "get_flattened_variables() missing 1 required positional argument: var_list") :=
  rfl

theorem zip3_get? {α β γ : Type} (as : List α) (bs : List β) (cs : List γ)
    (i : Nat) :
    (zip3 as bs cs).get? i =
      (as.get? i).bind (fun a => (bs.get? i).bind (fun b =>
        (cs.get? i).map (fun c => (a, b, c)))) := by
  induction as generalizing bs cs i with
  | nil => simp [zip3]
  | cons a as ih =>
    cases bs with
    | nil => simp [zip3]
    | cons b bs =>
      cases cs with
      | nil => simp [zip3]
      | cons c cs =>
        cases i with
        | zero => simp [zip3]
        | succ n => simpa [zip3] using ih bs cs n

theorem foldl_writeCell_miss (ts : List (Nat × Nat × PyVal)) (r c : Nat)
    (h : ∀ t ∈ ts, ¬(t.1 = r ∧ t.2.1 = c)) :
    ∀ g : Nat → Nat → PyVal, (ts.foldl writeCell g) r c = g r c := by
  induction ts with
  | nil => intro g; rfl
  | cons t ts ih =>
    intro g
    rw [List.foldl_cons, ih (fun u hu => h u (List.mem_cons_of_mem _ hu))]
    simp only [writeCell]
    exact if_neg (h t (List.mem_cons_self t ts))

theorem foldl_writeCell_last (ts₁ ts₂ : List (Nat × Nat × PyVal))
    (t : Nat × Nat × PyVal) (r c : Nat) (ht : t.1 = r ∧ t.2.1 = c)
    (h₂ : ∀ u ∈ ts₂, ¬(u.1 = r ∧ u.2.1 = c)) (g : Nat → Nat → PyVal) :
    ((ts₁ ++ t :: ts₂).foldl writeCell g) r c = t.2.2 := by
  rw [List.foldl_append, List.foldl_cons, foldl_writeCell_miss ts₂ r c h₂]
  simp only [writeCell]
  exact if_pos ht

theorem grid_variable_cell (var : Variable) (target : TargetGridInfo)
    (src : SourceIndexInfo) :
    (grid_variable var target src).cell =
      ((zip3 src.rows src.cols var.data).filter
        (fun t => sampleValid t.2.2)).foldl writeCell
        (fun _ _ => variable_fill_value var) := rfl

theorem mem_valid_samples_index (src : SourceIndexInfo) (var : Variable)
    (u : Nat × Nat × PyVal)
    (hu : u ∈ (zip3 src.rows src.cols var.data).filter
      (fun t => sampleValid t.2.2)) :
    ∃ j, src.rows.get? j = some u.1 ∧ src.cols.get? j = some u.2.1 ∧
      var.data.get? j = some u.2.2 ∧ sampleValid u.2.2 = true := by
  obtain ⟨huL, hup⟩ := List.mem_filter.mp hu
  obtain ⟨j, hj⟩ := List.mem_iff_get?.mp huL
  rw [zip3_get?] at hj
  refine ⟨j, ?_⟩
  cases hrk : src.rows.get? j with
  | none => rw [hrk] at hj; simp at hj
  | some r' =>
    cases hck : src.cols.get? j with
    | none => rw [hrk, hck] at hj; simp at hj
    | some c' =>
      cases hvk : var.data.get? j with
      | none => rw [hrk, hck, hvk] at hj; simp at hj
      | some v' =>
        rw [hrk, hck, hvk] at hj
        have hu2 : (r', c', v') = u := Option.some.inj hj
        obtain rfl := hu2
        exact ⟨rfl, rfl, rfl, hup⟩

theorem grid_variable_cell_eq_at (var : Variable) (target : TargetGridInfo)
    (src : SourceIndexInfo) (i r c : Nat) (v : PyVal)
    (hr : src.rows.get? i = some r) (hc : src.cols.get? i = some c)
    (hv : var.data.get? i = some v) (hvalid : sampleValid v = true)
    (hlast : ∀ j r' c' v', i < j → src.rows.get? j = some r' →
      src.cols.get? j = some c' → var.data.get? j = some v' →
      sampleValid v' = true → ¬(r' = r ∧ c' = c)) :
    (grid_variable var target src).cell r c = v := by
  have hLi : (zip3 src.rows src.cols var.data).get? i = some (r, c, v) := by
    rw [zip3_get?, hr, hc, hv]; rfl
  obtain ⟨hiL, hgetL⟩ := List.get?_eq_some.mp hLi
  have hdecomp : zip3 src.rows src.cols var.data =
      (zip3 src.rows src.cols var.data).take i ++ (r, c, v) ::
        (zip3 src.rows src.cols var.data).drop (i + 1) := by
    conv_lhs => rw [← List.take_append_drop i (zip3 src.rows src.cols var.data)]
    rw [List.drop_eq_get_cons hiL, hgetL]
  have hfl : (zip3 src.rows src.cols var.data).filter
        (fun t => sampleValid t.2.2) =
      ((zip3 src.rows src.cols var.data).take i).filter
        (fun t => sampleValid t.2.2) ++ (r, c, v) ::
        ((zip3 src.rows src.cols var.data).drop (i + 1)).filter
          (fun t => sampleValid t.2.2) := by
    conv_lhs => rw [hdecomp]
    rw [List.filter_append, List.filter_cons]
    simp [hvalid]
  rw [grid_variable_cell, hfl]
  refine foldl_writeCell_last _ _ _ r c ⟨rfl, rfl⟩ ?_ _
  intro u hu
  obtain ⟨huL, hup⟩ := List.mem_filter.mp hu
  obtain ⟨k, hk⟩ := List.mem_iff_get?.mp huL
  rw [List.get?_drop, zip3_get?] at hk
  cases hrk : src.rows.get? (i + 1 + k) with
  | none => rw [hrk] at hk; simp at hk
  | some r' =>
    cases hck : src.cols.get? (i + 1 + k) with
    | none => rw [hrk, hck] at hk; simp at hk
    | some c' =>
      cases hvk : var.data.get? (i + 1 + k) with
      | none => rw [hrk, hck, hvk] at hk; simp at hk
      | some v' =>
        rw [hrk, hck, hvk] at hk
        have hu2 : (r', c', v') = u := Option.some.inj hk
        obtain rfl := hu2
        exact hlast (i + 1 + k) r' c' v' (by omega) hrk hck hvk hup

theorem grid_variable_cell_fill_at (var : Variable) (target : TargetGridInfo)
    (src : SourceIndexInfo) (r c : Nat)
    (h : ∀ j r' c' v', src.rows.get? j = some r' →
      src.cols.get? j = some c' → var.data.get? j = some v' →
      sampleValid v' = true → ¬(r' = r ∧ c' = c)) :
    (grid_variable var target src).cell r c = variable_fill_value var := by
  rw [grid_variable_cell]
  rw [foldl_writeCell_miss _ r c ?_]
  intro u hu
  obtain ⟨j, hrj, hcj, hvj, hvalj⟩ := mem_valid_samples_index src var u hu
  exact h j u.1 u.2.1 u.2.2 hrj hcj hvj hvalj

/-- Claim C1 (amended): for equal-length variable/row/column arrays the
scatter result has shape (Grid Height, Grid Width); every valid in-bounds
sample whose cell no later valid sample addresses ends up in its cell; and
every cell addressed by no valid sample holds the variable's resolved fill
value. -/
theorem scatter_coverage_and_fill (var : Variable) (target : TargetGridInfo)
    (src : SourceIndexInfo) (N : Nat)
    (hlen1 : var.data.length = N) (hlen2 : src.rows.length = N)
    (hlen3 : src.cols.length = N) :
    (grid_variable var target src).height = target.gridHeight ∧
    (grid_variable var target src).width = target.gridWidth ∧
    (∀ i r c v, src.rows.get? i = some r → src.cols.get? i = some c →
      var.data.get? i = some v → sampleValid v = true →
      r < target.gridHeight → c < target.gridWidth →
      (∀ j r' c' v', i < j → src.rows.get? j = some r' →
        src.cols.get? j = some c' → var.data.get? j = some v' →
        sampleValid v' = true → ¬(r' = r ∧ c' = c)) →
      (grid_variable var target src).cell r c = v) ∧
    (∀ r c, (∀ j r' c' v', src.rows.get? j = some r' →
        src.cols.get? j = some c' → var.data.get? j = some v' →
        sampleValid v' = true → ¬(r' = r ∧ c' = c)) →
      (grid_variable var target src).cell r c = variable_fill_value var) := by
  refine ⟨rfl, rfl, ?_, ?_⟩
  · intro i r c v hr hc hv hvalid _ _ hlast
    exact grid_variable_cell_eq_at var target src i r c v hr hc hv hvalid hlast
  · intro r c h
    exact grid_variable_cell_fill_at var target src r c h

/-- Counterexample to claim C1 as stated: both samples are valid, in
bounds, and address cell (0,0); the cell holds the second sample's value 2,
so "cell (rows[i], cols[i]) equals variable[i]" fails for sample i = 0. -/
theorem scatter_coverage_counterexample :
    sampleValid (.floatV .float32 1) = true ∧
    (grid_variable
        ⟨[.floatV .float32 1, .floatV .float32 2], .float32, none, .noneV,
         .noneV, .noneV⟩
        ⟨2, 2⟩ ⟨[0, 0], [0, 0]⟩).cell 0 0 = .floatV .float32 2 ∧
    (grid_variable
        ⟨[.floatV .float32 1, .floatV .float32 2], .float32, none, .noneV,
         .noneV, .noneV⟩
        ⟨2, 2⟩ ⟨[0, 0], [0, 0]⟩).cell 0 0 ≠ .floatV .float32 1 := by
  decide

/-- Witness for C1 (amended) on a 2-sample variable with one NaN sample:
the valid sample lands at its cell and an unaddressed cell holds the
resolved fill value. -/
theorem scatter_coverage_and_fill_witness :
    sampleValid (.floatV .float32 7) = true ∧
    (grid_variable
        ⟨[.floatV .float32 7, .nanV .float32], .float32, none, .noneV,
         .noneV, .noneV⟩ ⟨2, 2⟩ ⟨[0, 1], [1, 1]⟩).cell 0 1 =
      .floatV .float32 7 ∧
    (grid_variable
        ⟨[.floatV .float32 7, .nanV .float32], .float32, none, .noneV,
         .noneV, .noneV⟩ ⟨2, 2⟩ ⟨[0, 1], [1, 1]⟩).cell 1 1 =
      variable_fill_value
        ⟨[.floatV .float32 7, .nanV .float32], .float32, none, .noneV,
         .noneV, .noneV⟩ := by
  refine ⟨by decide, ?_, ?_⟩
  · refine (scatter_coverage_and_fill
      ⟨[.floatV .float32 7, .nanV .float32], .float32, none, .noneV,
       .noneV, .noneV⟩ ⟨2, 2⟩ ⟨[0, 1], [1, 1]⟩ 2 rfl rfl rfl).2.2.1
      0 0 1 (.floatV .float32 7) rfl rfl rfl (by decide) (by decide)
      (by decide) ?_
    intro j r' c' v' hij hr hc hv hval
    match j, hv with
    | 1, hv =>
      have hv2 : PyVal.nanV .float32 = v' := Option.some.inj hv
      obtain rfl := hv2
      exact absurd hval (by decide)
    | k + 2, hv => exact Option.noConfusion hv
  · refine (scatter_coverage_and_fill
      ⟨[.floatV .float32 7, .nanV .float32], .float32, none, .noneV,
       .noneV, .noneV⟩ ⟨2, 2⟩ ⟨[0, 1], [1, 1]⟩ 2 rfl rfl rfl).2.2.2 1 1 ?_
    intro j r' c' v' hr hc hv hval
    match j, hr, hv with
    | 0, hr, hv =>
      have hr2 : (0 : Nat) = r' := Option.some.inj hr
      obtain rfl := hr2
      intro hcontra
      exact absurd hcontra.1 (by decide)
    | 1, hr, hv =>
      have hv2 : PyVal.nanV .float32 = v' := Option.some.inj hv
      obtain rfl := hv2
      exact absurd hval (by decide)
    | k + 2, hr, hv => exact Option.noConfusion hv

/-- Claim C8: when two distinct valid samples i < j address the same
in-bounds cell and sample j is the last valid sample addressing it, the
scattered output holds sample j's value there (last-writer-wins, no
averaging and no conflict detection). -/
theorem scatter_last_writer_wins (var : Variable) (target : TargetGridInfo)
    (src : SourceIndexInfo) (N i j r c : Nat) (vi vj : PyVal)
    (hlen1 : var.data.length = N) (hlen2 : src.rows.length = N)
    (hlen3 : src.cols.length = N) (hij : i < j)
    (hri : src.rows.get? i = some r) (hci : src.cols.get? i = some c)
    (hvi : var.data.get? i = some vi) (hvalidi : sampleValid vi = true)
    (hrj : src.rows.get? j = some r) (hcj : src.cols.get? j = some c)
    (hvj : var.data.get? j = some vj) (hvalidj : sampleValid vj = true)
    (hr : r < target.gridHeight) (hc : c < target.gridWidth)
    (hlast : ∀ k r' c' v', j < k → src.rows.get? k = some r' →
      src.cols.get? k = some c' → var.data.get? k = some v' →
      sampleValid v' = true → ¬(r' = r ∧ c' = c)) :
    (grid_variable var target src).cell r c = vj :=
  grid_variable_cell_eq_at var target src j r c vj hrj hcj hvj hvalidj hlast

/-- Witness for C8: two valid samples collide on cell (0,0) and the second
one's value 2 is what the cell holds. -/
theorem scatter_last_writer_wins_witness :
    sampleValid (.floatV .float32 1) = true ∧
    sampleValid (.floatV .float32 2) = true ∧
    (grid_variable
        ⟨[.floatV .float32 1, .floatV .float32 2], .float32, none, .noneV,
         .noneV, .noneV⟩
        ⟨2, 2⟩ ⟨[0, 0], [0, 0]⟩).cell 0 0 = .floatV .float32 2 := by
  refine ⟨by decide, by decide, ?_⟩
  refine scatter_last_writer_wins
    ⟨[.floatV .float32 1, .floatV .float32 2], .float32, none, .noneV,
     .noneV, .noneV⟩ ⟨2, 2⟩ ⟨[0, 0], [0, 0]⟩ 2 0 1 0 0
    (.floatV .float32 1) (.floatV .float32 2) rfl rfl rfl (by decide)
    rfl rfl rfl (by decide) rfl rfl rfl (by decide) (by decide) (by decide)
    ?_
  intro k r' c' v' hk hr' hc' hv' hval
  match k, hv' with
  | m + 2, hv' => exact Option.noConfusion hv'

theorem append_suffix_ne (s t : String) (ht : t.length ≠ 0) : s ++ t ≠ s := by
  intro h
  have hl := congrArg String.length h
  rw [String.length_append] at hl
  omega

theorem append_ne_append_of_ne (s : String) {t u : String} (h : t ≠ u) :
    s ++ t ≠ s ++ u := by
  intro he
  apply h
  have hdata : s.data ++ t.data = s.data ++ u.data := congrArg String.data he
  have htu := List.append_cancel_left hdata
  cases t with
  | mk td =>
    cases u with
    | mk ud => exact congrArg String.mk htu

theorem lookup_upsertAssoc_self {β : Type} (l : List (String × β))
    (k : String) (v : β) : List.lookup k (upsertAssoc l k v) = some v := by
  induction l with
  | nil => simp [upsertAssoc, List.lookup]
  | cons p rest ih =>
    obtain ⟨pk, pv⟩ := p
    by_cases h : pk = k
    · simp [upsertAssoc, h, List.lookup]
    · have hb : (k == pk) = false := by simp [Ne.symm h]
      simp [upsertAssoc, h, List.lookup, hb, ih]

theorem lookup_upsertAssoc_ne {β : Type} (l : List (String × β))
    (k name : String) (v : β) (h : name ≠ k) :
    List.lookup name (upsertAssoc l k v) = List.lookup name l := by
  induction l with
  | nil =>
    have hb : (name == k) = false := by simp [h]
    simp [upsertAssoc, List.lookup, hb]
  | cons p rest ih =>
    obtain ⟨pk, pv⟩ := p
    by_cases hpk : pk = k
    · have hb1 : (name == k) = false := by simp [h]
      have hb2 : (name == pk) = false := by simp [hpk ▸ h]
      simp [upsertAssoc, hpk, List.lookup, hb1, hb2]
    · by_cases hnp : name = pk
      · simp [upsertAssoc, hpk, List.lookup, hnp]
      · have hb : (name == pk) = false := by simp [hnp]
        simp [upsertAssoc, hpk, List.lookup, hb, ih]

theorem lookup_removeVar_self (l : List (String × DataArrayVar))
    (k : String) : List.lookup k (removeVar l k) = none := by
  induction l with
  | nil => rfl
  | cons p rest ih =>
    obtain ⟨pk, pv⟩ := p
    by_cases hpk : pk = k
    · simp [removeVar, List.filter_cons, hpk] at ih ⊢
      exact ih
    · have hne : (pk != k) = true := by simp [hpk]
      have hb : (k == pk) = false := by simp [Ne.symm hpk]
      simp [removeVar, List.filter_cons, hne, List.lookup, hb] at ih ⊢
      exact ih

theorem lookup_removeVar_ne (l : List (String × DataArrayVar))
    (k name : String) (h : name ≠ k) :
    List.lookup name (removeVar l k) = List.lookup name l := by
  induction l with
  | nil => rfl
  | cons p rest ih =>
    obtain ⟨pk, pv⟩ := p
    by_cases hpk : pk = k
    · have hb : (name == pk) = false := by simp [hpk ▸ h]
      have hb2 : (name == k) = false := by simp [h]
      simp [removeVar, List.filter_cons, hpk, List.lookup, hb, hb2] at ih ⊢
      exact ih
    · have hne : (pk != k) = true := by simp [hpk]
      by_cases hnp : name = pk
      · simp [removeVar, List.filter_cons, hne, List.lookup, hnp]
      · have hb : (name == pk) = false := by simp [hnp]
        simp [removeVar, List.filter_cons, hne, List.lookup, hb] at ih ⊢
        exact ih

/-- Claim C6: splitting a present variable of shape (N, 3) yields variables
`{name}_1`, `{name}_2`, `{name}_3` of shape (N,) holding columns 0, 1
and 2 of the original, with the original name absent from the result; and
splitting a present variable whose shape is not rank-2 with second
dimension 3 fails with `InvalidVariableShape`. -/
theorem split_2d_variable_spec (in_dt : DTree) (var_name : String)
    (mv : DataArrayVar) (n : Nat)
    (hlookup : List.lookup var_name in_dt.vars = some mv) :
    (mv.data.shape = [n, 3] →
      ∃ out, split_2d_variable in_dt var_name = .ok out ∧
        List.lookup var_name out.vars = none ∧
        (∃ w, List.lookup (var_name ++ "_1") out.vars = some w ∧
          w.data.shape = [n] ∧ ∀ i v, i < n →
            mv.data.flatData.get? (i * 3) = some v →
            w.data.flatData.get? i = some v) ∧
        (∃ w, List.lookup (var_name ++ "_2") out.vars = some w ∧
          w.data.shape = [n] ∧ ∀ i v, i < n →
            mv.data.flatData.get? (i * 3 + 1) = some v →
            w.data.flatData.get? i = some v) ∧
        (∃ w, List.lookup (var_name ++ "_3") out.vars = some w ∧
          w.data.shape = [n] ∧ ∀ i v, i < n →
            mv.data.flatData.get? (i * 3 + 2) = some v →
            w.data.flatData.get? i = some v)) ∧
    ((mv.data.shape.length ≠ 2 ∨ (mv.data.shape.get? 1).getD 0 ≠ 3) →
      split_2d_variable in_dt var_name =
        .error (.invalidVariableShape
          ("Variable " ++ var_name ++ " must have shape (N, 3)"))) := by
  constructor
  · intro hshape
    have hcond : ¬(mv.data.shape.length ≠ 2 ∨
        (mv.data.shape.get? 1).getD 0 ≠ 3) := by
      push_neg
      exact ⟨by rw [hshape]; rfl, by rw [hshape]; rfl⟩
    have hsplit : split_2d_variable in_dt var_name = .ok
        ⟨removeVar
          (upsertAssoc
            (upsertAssoc
              (upsertAssoc in_dt.vars (var_name ++ "_1")
                ⟨mv.data.column 0, []⟩)
              (var_name ++ "_2") ⟨mv.data.column 1, []⟩)
            (var_name ++ "_3") ⟨mv.data.column 2, []⟩)
          var_name, in_dt.attrs⟩ := by
      simp [split_2d_variable, hlookup, hcond, hshape]
    refine ⟨_, hsplit, lookup_removeVar_self _ _, ?_, ?_, ?_⟩
    · refine ⟨⟨mv.data.column 0, []⟩, ?_, ?_, ?_⟩
      · rw [lookup_removeVar_ne _ _ _ (append_suffix_ne var_name "_1" (by decide)),
          lookup_upsertAssoc_ne _ _ _ _ (append_ne_append_of_ne var_name (by decide)),
          lookup_upsertAssoc_ne _ _ _ _ (append_ne_append_of_ne var_name (by decide)),
          lookup_upsertAssoc_self]
      · simp [NdArray.column, hshape]
      · intro i v hi hv
        simp only [NdArray.column, hshape, List.headD_cons]
        rw [List.get?_map, List.get?_range hi]
        simp only [List.get?_eq_getElem?] at hv
        simp [hv]
    · refine ⟨⟨mv.data.column 1, []⟩, ?_, ?_, ?_⟩
      · rw [lookup_removeVar_ne _ _ _ (append_suffix_ne var_name "_2" (by decide)),
          lookup_upsertAssoc_ne _ _ _ _ (append_ne_append_of_ne var_name (by decide)),
          lookup_upsertAssoc_self]
      · simp [NdArray.column, hshape]
      · intro i v hi hv
        simp only [NdArray.column, hshape, List.headD_cons]
        rw [List.get?_map, List.get?_range hi]
        simp only [List.get?_eq_getElem?] at hv
        simp [hv]
    · refine ⟨⟨mv.data.column 2, []⟩, ?_, ?_, ?_⟩
      · rw [lookup_removeVar_ne _ _ _ (append_suffix_ne var_name "_3" (by decide)),
          lookup_upsertAssoc_self]
      · simp [NdArray.column, hshape]
      · intro i v hi hv
        simp only [NdArray.column, hshape, List.headD_cons]
        rw [List.get?_map, List.get?_range hi]
        simp only [List.get?_eq_getElem?] at hv
        simp [hv]
  · intro hbad
    simp only [split_2d_variable, hlookup]
    rw [if_pos hbad]

/-- Witness for C6: splitting the (2, 3) variable `v` of `plainTree`
succeeds with the three expected columns and absent original, and splitting
its 1D variable `other` fails with `InvalidVariableShape`. -/
theorem split_2d_variable_spec_witness :
    (∃ out, split_2d_variable plainTree "v" = .ok out ∧
      List.lookup "v" out.vars = none ∧
      (∃ w, List.lookup ("v" ++ "_1") out.vars = some w ∧
        w.data.shape = [2] ∧ ∀ i v, i < 2 →
          plainTreeV.data.flatData.get? (i * 3) = some v →
          w.data.flatData.get? i = some v) ∧
      (∃ w, List.lookup ("v" ++ "_2") out.vars = some w ∧
        w.data.shape = [2] ∧ ∀ i v, i < 2 →
          plainTreeV.data.flatData.get? (i * 3 + 1) = some v →
          w.data.flatData.get? i = some v) ∧
      (∃ w, List.lookup ("v" ++ "_3") out.vars = some w ∧
        w.data.shape = [2] ∧ ∀ i v, i < 2 →
          plainTreeV.data.flatData.get? (i * 3 + 2) = some v →
          w.data.flatData.get? i = some v)) ∧
    split_2d_variable plainTree "other" =
      .error (.invalidVariableShape
        ("Variable " ++ "other" ++ " must have shape (N, 3)")) :=
  ⟨(split_2d_variable_spec plainTree "v" plainTreeV 2 rfl).1 rfl,
   (split_2d_variable_spec plainTree "other" plainTreeOther 0 rfl).2
     (by decide)⟩

/-- Claim C10 (amended): splitting a variable leaves the group attributes
and every variable whose name is neither the split name nor one of the
three generated names unchanged in the returned copy (the embedding is
pure, so the input tree itself is never modified). -/
theorem split_2d_variable_frame (in_dt : DTree) (var_name : String)
    (out : DTree) (name : String)
    (hok : split_2d_variable in_dt var_name = .ok out)
    (h1 : name ≠ var_name) (h2 : name ≠ var_name ++ "_1")
    (h3 : name ≠ var_name ++ "_2") (h4 : name ≠ var_name ++ "_3") :
    List.lookup name out.vars = List.lookup name in_dt.vars ∧
    out.attrs = in_dt.attrs := by
  cases hlv : List.lookup var_name in_dt.vars with
  | none => simp [split_2d_variable, hlv] at hok
  | some mv =>
    by_cases hcond : (mv.data.shape.length ≠ 2 ∨
        (mv.data.shape.get? 1).getD 0 ≠ 3)
    · have hok2 := hok
      simp only [split_2d_variable, hlv] at hok2
      rw [if_pos hcond] at hok2
      exact Except.noConfusion hok2
    · have hok2 := hok
      simp only [split_2d_variable, hlv] at hok2
      rw [if_neg hcond] at hok2
      have heq : out =
          ⟨removeVar
            (upsertAssoc
              (upsertAssoc
                (upsertAssoc in_dt.vars (var_name ++ "_1")
                  ⟨mv.data.column 0, []⟩)
                (var_name ++ "_2") ⟨mv.data.column 1, []⟩)
              (var_name ++ "_3") ⟨mv.data.column 2, []⟩)
            var_name, in_dt.attrs⟩ :=
        (Except.ok.inj hok2).symm
      have hvars : out.vars = removeVar
          (upsertAssoc
            (upsertAssoc
              (upsertAssoc in_dt.vars (var_name ++ "_1")
                ⟨mv.data.column 0, []⟩)
              (var_name ++ "_2") ⟨mv.data.column 1, []⟩)
            (var_name ++ "_3") ⟨mv.data.column 2, []⟩)
          var_name := congrArg DTree.vars heq
      have hattrs : out.attrs = in_dt.attrs := by rw [heq]
      refine ⟨?_, hattrs⟩
      rw [hvars, lookup_removeVar_ne _ _ _ h1,
        lookup_upsertAssoc_ne _ _ _ _ h4,
        lookup_upsertAssoc_ne _ _ _ _ h3,
        lookup_upsertAssoc_ne _ _ _ _ h2]

/-- Counterexample to claim C10 as stated: `collisionTree` already holds a
variable `v_1`; splitting its (1, 3) variable `v` overwrites that other
variable, so not every other variable is left unchanged. -/
theorem split_2d_variable_frame_counterexample :
    split_2d_variable collisionTree "v" =
      .ok ⟨[("v_1", ⟨⟨[1], [.intV .int16 1]⟩, []⟩),
            ("v_2", ⟨⟨[1], [.intV .int16 2]⟩, []⟩),
            ("v_3", ⟨⟨[1], [.intV .int16 3]⟩, []⟩)], []⟩ ∧
    List.lookup "v_1"
        ([("v_1", ⟨⟨[1], [.intV .int16 1]⟩, []⟩),
          ("v_2", ⟨⟨[1], [.intV .int16 2]⟩, []⟩),
          ("v_3", ⟨⟨[1], [.intV .int16 3]⟩, []⟩)] :
          List (String × DataArrayVar)) ≠
      List.lookup "v_1" collisionTree.vars := by
  exact ⟨rfl, by decide⟩

/-- Witness for C10 (amended): splitting `v` in `plainTree` leaves the
variable `other` and the group attributes unchanged. -/
theorem split_2d_variable_frame_witness :
    split_2d_variable plainTree "v" = .ok plainTreeSplit ∧
    List.lookup "other" plainTreeSplit.vars =
      List.lookup "other" plainTree.vars ∧
    plainTreeSplit.attrs = plainTree.attrs :=
  ⟨rfl,
   (split_2d_variable_frame plainTree "v" plainTreeSplit "other" rfl
     (by decide) (by decide) (by decide) (by decide)).1,
   (split_2d_variable_frame plainTree "v" plainTreeSplit "other" rfl
     (by decide) (by decide) (by decide) (by decide)).2⟩

/-- Claim C3 (spec-modelled: the coordinate synthesizer is imported by
grid.py from crs.py but missing from this snapshot's crs.py): for a
grid-parameter mapping of width W, height H and positive cell size,
`compute_dims` returns exactly W x-coordinates and H y-coordinates, the
x-coordinates strictly increasing and the y-coordinates strictly
decreasing. -/
theorem compute_dims_spec (target_info : GpdTargetInfo)
    (hcell : 0 < target_info.gridMapUnitsPerCell) :
    (compute_dims target_info).1.length = target_info.gridWidth ∧
    (compute_dims target_info).2.length = target_info.gridHeight ∧
    (compute_dims target_info).1.Pairwise (· < ·) ∧
    (compute_dims target_info).2.Pairwise (fun a b => b < a) := by
  have hx : (compute_dims target_info).1 =
      (List.range target_info.gridWidth).map
        (fun i : Nat => ((geotransform_from_target_info target_info).col_row_to_xy
          (i : ℚ) 0).1) := rfl
  have hy : (compute_dims target_info).2 =
      (List.range target_info.gridHeight).map
        (fun j : Nat => ((geotransform_from_target_info target_info).col_row_to_xy
          0 (j : ℚ)).2) := rfl
  refine ⟨?_, ?_, ?_, ?_⟩
  · rw [hx, List.length_map, List.length_range]
  · rw [hy, List.length_map, List.length_range]
  · rw [hx, List.pairwise_map]
    refine (List.pairwise_lt_range _).imp ?_
    intro a b hab
    have hq : (a : ℚ) < (b : ℚ) := by exact_mod_cast hab
    simp only [Geotransform.col_row_to_xy, geotransform_from_target_info]
    nlinarith [hcell, hq]
  · rw [hy, List.pairwise_map]
    refine (List.pairwise_lt_range _).imp ?_
    intro a b hab
    have hq : (a : ℚ) < (b : ℚ) := by exact_mod_cast hab
    simp only [Geotransform.col_row_to_xy, geotransform_from_target_info]
    nlinarith [hcell, hq]

/-- Witness for C3: a 10×10 grid with origin (-5000, -5000) and cell size
1000 (the sample grid of the crs unit tests). -/
theorem compute_dims_spec_witness :
    (0 : ℚ) <
      (⟨-5000, -5000, 1000, 10, 10⟩ : GpdTargetInfo).gridMapUnitsPerCell ∧
    ((compute_dims ⟨-5000, -5000, 1000, 10, 10⟩).1.length =
        (⟨-5000, -5000, 1000, 10, 10⟩ : GpdTargetInfo).gridWidth ∧
      (compute_dims ⟨-5000, -5000, 1000, 10, 10⟩).2.length =
        (⟨-5000, -5000, 1000, 10, 10⟩ : GpdTargetInfo).gridHeight ∧
      (compute_dims ⟨-5000, -5000, 1000, 10, 10⟩).1.Pairwise (· < ·) ∧
      (compute_dims ⟨-5000, -5000, 1000, 10, 10⟩).2.Pairwise
        (fun a b => b < a)) :=
  ⟨(by norm_num : (0 : ℚ) < 1000),
   compute_dims_spec ⟨-5000, -5000, 1000, 10, 10⟩
     (by norm_num : (0 : ℚ) < 1000)⟩

/-- Claim C7: the gpd parser skips blank lines and `;` comment lines; every
other line containing `:` contributes its trimmed key and trimmed value
(trailing `;` comment stripped); a value containing `.` parses as a float,
otherwise an integer parse is attempted, and a failed parse keeps the value
as a string (the parse functions are total, so no exception escapes). -/
theorem gpd_parser_rules (raw v : String) :
    (trimChars raw.data = [] → processLine raw = none) ∧
    ((trimChars raw.data).head? = some ';' → processLine raw = none) ∧
    (trimChars raw.data ≠ [] → (trimChars raw.data).head? ≠ some ';' →
      ':' ∈ trimChars raw.data →
      lineKey raw ≠ "" → lineValue raw ≠ "" →
      processLine raw = some (lineKey raw, convert_value (lineValue raw))) ∧
    ('.' ∈ (pyStrip v).data →
      ∀ q, pyFloatOfString? (pyStrip v) = some q →
        convert_value v = .float q) ∧
    ('.' ∉ (pyStrip v).data →
      ∀ n, pyIntOfString? (pyStrip v) = some n →
        convert_value v = .int n) ∧
    ('.' ∈ (pyStrip v).data →
      pyFloatOfString? (pyStrip v) = none →
      convert_value v = .str (pyStrip v)) ∧
    ('.' ∉ (pyStrip v).data →
      pyIntOfString? (pyStrip v) = none →
      convert_value v = .str (pyStrip v)) := by
  refine ⟨?_, ?_, ?_, ?_, ?_, ?_, ?_⟩
  · intro h; simp [processLine, h]
  · intro h
    by_cases he : trimChars raw.data = []
    · simp [processLine, he]
    · simp [processLine, he, h]
  · intro h1 h2 h3 h4 h5
    simp [processLine, h1, h2, h3, h4, h5]
  · intro h q hq; simp [convert_value, h, hq]
  · intro h n hn; simp [convert_value, h, hn]
  · intro h hq; simp [convert_value, h, hq]
  · intro h hn; simp [convert_value, h, hn]

/-- Witness for C7 on the sample gpd lines of the crs unit tests: a blank
line and a comment line contribute nothing, a key/value line contributes
its entry, and concrete values of each kind convert as claimed. -/
theorem gpd_parser_rules_witness :
    processLine "   " = none ∧
    processLine "; Example gpd for parsing" = none ∧
    processLine "Map Origin X: -7000.0  ; pinned location" =
      some (lineKey "Map Origin X: -7000.0  ; pinned location",
        convert_value (lineValue "Map Origin X: -7000.0  ; pinned location")) ∧
    convert_value "-7000.0" = .float (-7000) ∧
    convert_value " 123 " = .int 123 ∧
    convert_value "12.3.4" = .str "12.3.4" ∧
    convert_value "abc " = .str "abc" := by
  refine ⟨?_, ?_, ?_, ?_, ?_, ?_, ?_⟩
  · exact (gpd_parser_rules "   " "x").1 (by decide)
  · exact (gpd_parser_rules "; Example gpd for parsing" "x").2.1 (by decide)
  · exact (gpd_parser_rules "Map Origin X: -7000.0  ; pinned location"
      "x").2.2.1 (by decide) (by decide) (by decide) (by decide) (by decide)
  · refine (gpd_parser_rules "x" "-7000.0").2.2.2.1 (by decide) (-7000) ?_
    have h : pyFloatOfString? (pyStrip "-7000.0") =
        some (((-1 : Int) : ℚ) * (((7000 : Nat) : ℚ) +
          ((0 : Nat) : ℚ) / (10 : ℚ) ^ (1 : Nat))) := rfl
    rw [h]; norm_num
  · exact (gpd_parser_rules "x" " 123 ").2.2.2.2.1 (by decide) 123 (by decide)
  · exact (gpd_parser_rules "x" "12.3.4").2.2.2.2.2.1 (by decide) (by decide)
  · exact (gpd_parser_rules "x" "abc ").2.2.2.2.2.2 (by decide) (by decide)

end SmapL2
